import Mathlib

/-!
Shallow embedding of the chain-state bridge and contract-interface synthesis
pipeline of `src/routes/+page.svelte` (the "Mana" host page).

The embedding follows the source top to bottom:
* the transport bridge built into the `client` `PublicClient` (lines 17-36),
* the credential persistence effects (lines 43-47 and 229-231),
* `start` (lines 58-66), `fork`/`unfork` (lines 68-77), `getBlock` (lines 79-83),
* `handleAbi` — interface synthesis, identity probe, generation request and
  sandbox injection (lines 85-202),
* the polling `$effect` with its `isRunning` flag and timer (lines 204-223).

Promises are embedded as `Except` (rejection = `Except.error`); awaited
outcomes of external collaborators (native executor, whatsabi autoload,
generation service) are passed in as explicit parameters; the mutable Svelte
state is passed as explicit state values.
-/

namespace Mana

/-! ## Transport bridge (source lines 17-36)

`client` is a viem `PublicClient` over a `custom` transport whose `request`
forwards the envelope through `invoke('request', …)` and then unwraps:

```
.then((response) => {
  if (response.error) throw response.error
  return response.result
}).catch(e => { throw e })
```
-/

/-- The native JSON-RPC error payload `{code, message, data}`.  In JavaScript
this is always an object, hence always truthy when present. -/
structure RpcErrorPayload where
  code : Int
  message : String
  data : Option String
deriving DecidableEq, Repr

/-- A bridged response from the native executor: `{result} | {error}`.
`error` is either absent (`none`) or an error-payload object. -/
structure BridgedResponse where
  error : Option RpcErrorPayload
  result : Option String
deriving DecidableEq, Repr

/-- The `.then` handler of the transport (source lines 27-29):
`if (response.error) throw response.error; return response.result`.
A present `error` field holds an object, which is truthy in JavaScript, so
the truthiness test coincides with presence. -/
def thenHandler (response : BridgedResponse) : Except RpcErrorPayload (Option String) :=
  match response.error with
  | some e => Except.error e
  | none => Except.ok response.result

/-- The `.catch(e => { throw e })` handler (source lines 30-32): rethrows
the rejection value unchanged. -/
def catchRethrow (r : Except RpcErrorPayload (Option String)) :
    Except RpcErrorPayload (Option String) :=
  match r with
  | Except.error e => Except.error e
  | Except.ok v => Except.ok v

/-- The settled outcome of one transport-bridge call, given the bridged
response the native executor produced (source lines 20-33). -/
def sendOutcome (response : BridgedResponse) : Except RpcErrorPayload (Option String) :=
  catchRethrow (thenHandler response)

/-! ## Fork manager (source lines 16, 68-77)

`tevmClient : MemoryClient | undefined` is the single mutable fork slot.
`fork()` assigns a freshly created memory client; `unfork()` assigns
`undefined`.  We tag each `createMemoryClient` call with a freshness counter
so that "the second fork replaces the first" is observable. -/

/-- The backend a chain read is served from: the live transport-bridge
`client`, or a forked in-memory `tevmClient` (tagged by creation index). -/
inductive Backend where
  | liveClient
  | forkedClient (id : Nat)
deriving DecidableEq, Repr

/-- The fork-relevant component state: the `tevmClient` slot (`none` =
`undefined` = Live mode) and a freshness counter for `createMemoryClient`. -/
structure AppState where
  tevmClient : Option Nat
  nextClientId : Nat
deriving DecidableEq, Repr

/-- Initial state: `tevmClient = $state(undefined)` (source line 16). -/
def initState : AppState :=
  { tevmClient := none, nextClientId := 0 }

/-- Source `fork()` (lines 68-74): `tevmClient = createMemoryClient({fork:
{transport: client}})` — unconditionally overwrites the slot with a fresh
in-memory client forked through the live transport. -/
def fork (s : AppState) : AppState :=
  { tevmClient := some s.nextClientId, nextClientId := s.nextClientId + 1 }

/-- Source `unfork()` (lines 75-77): `tevmClient = undefined` — total,
raises nothing, regardless of the current state. -/
def unfork (s : AppState) : AppState :=
  { s with tevmClient := none }

/-- Number of active forked sessions held by the state.  The source keeps at
most one because the slot is a single variable. -/
def activeSessionCount (s : AppState) : Nat :=
  match s.tevmClient with
  | some _ => 1
  | none => 0

/-- The backend `getBlock` reads from (source lines 79-83): the closure is
`client.getBlock({blockTag: 'latest'})` — it names the live `client` state
variable directly and never consults `tevmClient`. -/
def getBlockBackend (_s : AppState) : Backend :=
  Backend.liveClient

/-- The provider handed to `whatsabi.autoload` (source line 90):
`const config = { provider: client }` — always the live client. -/
def autoloadProviderBackend (_s : AppState) : Backend :=
  Backend.liveClient

/-- The backend of the identity-probe read (source lines 109-113):
`await client.readContract({...})` — always the live client. -/
def identityProbeBackend (_s : AppState) : Backend :=
  Backend.liveClient

/-- The `getBlock` read dispatching to whichever oracle its backend designates:
`client.getBlock` consults the live oracle, never the forked one. -/
def getBlockVia (s : AppState) (live : Unit → Nat) (forked : Nat → Nat) : Nat :=
  match getBlockBackend s with
  | Backend.liveClient => live ()
  | Backend.forkedClient i => forked i

/-! ## Interface synthesis pipeline: `handleAbi` (source lines 85-202)

The awaited collaborator outcomes are passed in explicitly:
* `autoload` — the settled `whatsabi.autoload(trimmedAddress, config)` call,
* `nameProbe` — the settled `client.readContract({functionName: 'name'})`
  call (consumed only when a zero-argument `name` function is found),
* `genResponse` — the settled generation-service round trip
  (`fetch` + `response.json()` + content extraction): rejection, or the
  optional `data.choices?.[0]?.message?.content` string.
-/

/-- One ABI item as inspected by `handleAbi` (source lines 102-106):
only `type`, `name` and the optional `inputs` arity are consulted. -/
structure AbiItem where
  type : String
  name : String
  inputs : Option (List String)
deriving DecidableEq, Repr

/-- The `whatsabi.autoload` result fields `handleAbi` consumes. -/
structure AutoloadResult where
  abi : List AbiItem
  proxies : List String
deriving DecidableEq, Repr

/-- The identity-probe candidate search (source lines 102-106):
`result.abi.find(item => item.type === 'function' && item.name === 'name'
&& item.inputs?.length === 0)`; with `inputs` absent the optional chain
yields `undefined === 0`, i.e. no match. -/
def findNameFunction (abi : List AbiItem) : Option AbiItem :=
  abi.find? (fun item =>
    item.type == "function" && item.name == "name" &&
      (item.inputs.map List.length == some 0))

/-- One DOM operation of the sandbox injection tail (source lines 192-195). -/
inductive InjectOp where
  | openDoc
  | writeMarkup (markup : String)
  | attachProvider
  | closeDoc
deriving DecidableEq, Repr

/-- What one `handleAbi` invocation did. -/
structure HandleAbiOutcome where
  /-- the generation-service `fetch` was issued (source line 120) -/
  generationRequested : Bool
  /-- the identity label computed before the generation request -/
  contractName : Option String
  /-- DOM operations performed on the sandbox, in order -/
  injectionOps : List InjectOp
  /-- the outer `catch (error) { console.error }` fired (source lines 199-201) -/
  caughtError : Bool
deriving DecidableEq, Repr

/-- Source `handleAbi` (lines 85-202).  The whole body is wrapped in
`try { … } catch (error) { console.error('Error:', error) }`, so the
function itself never rejects.  Stages in source order: autoload, identity
probe (inner try/catch, source lines 101-118), unconditional generation
request (line 120), content extraction with truthiness guard (line 167),
iframe/document presence guards (lines 171, 174), injection (lines
192-195). -/
def handleAbi (autoload : Except String AutoloadResult)
    (nameProbe : Except String String)
    (genResponse : Except String (Option String))
    (iframePresent docPresent : Bool) : HandleAbiOutcome :=
  match autoload with
  | Except.error _ =>
      { generationRequested := false, contractName := none,
        injectionOps := [], caughtError := true }
  | Except.ok result =>
      let contractName :=
        match findNameFunction result.abi with
        | some _ =>
            match nameProbe with
            | Except.ok n => n
            | Except.error _ => "Unknown Contract"
        | none => "Unknown Contract"
      match genResponse with
      | Except.error _ =>
          { generationRequested := true, contractName := some contractName,
            injectionOps := [], caughtError := true }
      | Except.ok none =>
          { generationRequested := true, contractName := some contractName,
            injectionOps := [], caughtError := false }
      | Except.ok (some generatedUI) =>
          if generatedUI = "" then
            { generationRequested := true, contractName := some contractName,
              injectionOps := [], caughtError := false }
          else if !iframePresent then
            { generationRequested := true, contractName := some contractName,
              injectionOps := [], caughtError := false }
          else if !docPresent then
            { generationRequested := true, contractName := some contractName,
              injectionOps := [], caughtError := false }
          else
            { generationRequested := true, contractName := some contractName,
              injectionOps := [InjectOp.openDoc, InjectOp.writeMarkup generatedUI,
                               InjectOp.attachProvider, InjectOp.closeDoc],
              caughtError := false }

/-! ## Poll loop (source lines 204-223)

```
let timeoutId; let isRunning = true
const pollBlock = async () => {
    await getBlock();
    await handleAbi();
    if (!isRunning) return
    timeoutId = setTimeout(pollBlock, 10_000);
};
pollBlock();
return () => { isRunning = false; clearTimeout(timeoutId); };
```
-/

/-- How one `pollBlock` invocation ends. -/
inductive CycleEnd where
  /-- reached `timeoutId = setTimeout(pollBlock, 10_000)` -/
  | scheduledNext
  /-- the `await getBlock()` step threw: `getBlock` has no catch, so `pollBlock`'s
  promise rejects and nothing after the first await runs -/
  | rejectedUnhandled
  /-- the `if (!isRunning) return` guard took the early return -/
  | stoppedByFlag
deriving DecidableEq, Repr

/-- One `pollBlock` cycle: the source awaits `getBlock()` (which can
reject — no catch anywhere on its path), then awaits `handleAbi()` (total:
its body is wrapped in try/catch), then checks `isRunning` once, then
schedules. -/
def runCycle (fetchFails : Bool)
    (autoload : Except String AutoloadResult)
    (nameProbe : Except String String)
    (genResponse : Except String (Option String))
    (iframePresent docPresent : Bool)
    (runningAtCheck : Bool) : CycleEnd :=
  if fetchFails then
    CycleEnd.rejectedUnhandled
  else
    let _synth := handleAbi autoload nameProbe genResponse iframePresent docPresent
    if runningAtCheck then CycleEnd.scheduledNext else CycleEnd.stoppedByFlag

/-- The awaited-boundary at which teardown (the effect cleanup: `isRunning
= false; clearTimeout(timeoutId)`) interleaves with an in-flight cycle.
The event loop admits exactly the two await points; everything from the
resumption after `handleAbi` through `setTimeout` is synchronous. -/
inductive CancelAt where
  | never
  | duringFetch
  | duringSynth
deriving DecidableEq, Repr

/-- Observable events of one cycle, in temporal order. -/
inductive Ev where
  | fetchStart
  | fetchSettle
  | synthStart
  | synthSettle
  | teardownEv
  | flagCheck (isRunning : Bool)
  | schedule
deriving DecidableEq, Repr

/-- The temporal trace of one fetch-successful cycle under each teardown
interleaving, transcribed from the source control flow: `pollBlock` resumes
after each await with no flag check until the single `if (!isRunning)`
after the synthesis await. -/
def cycleTrace : CancelAt → List Ev
  | CancelAt.never =>
      [Ev.fetchStart, Ev.fetchSettle, Ev.synthStart, Ev.synthSettle,
       Ev.flagCheck true, Ev.schedule]
  | CancelAt.duringFetch =>
      [Ev.fetchStart, Ev.teardownEv, Ev.fetchSettle, Ev.synthStart,
       Ev.synthSettle, Ev.flagCheck false]
  | CancelAt.duringSynth =>
      [Ev.fetchStart, Ev.fetchSettle, Ev.synthStart, Ev.teardownEv,
       Ev.synthSettle, Ev.flagCheck false]

/-- Events strictly after the teardown event (empty when no teardown). -/
def afterTeardown (t : List Ev) : List Ev :=
  (t.dropWhile (fun e => e != Ev.teardownEv)).drop 1

/-- The event immediately following the block-fetch settlement. -/
def nextAfterFetchSettle (t : List Ev) : Option Ev :=
  ((t.dropWhile (fun e => e != Ev.fetchSettle)).drop 1).head?

/-! ## Poll cadence timing (source lines 209-216)

Cycle `k` runs for `dur k` (the time for both awaited steps to settle);
the timer for cycle `k+1` is installed at cycle `k`'s settlement and fires
after the fixed 10 000 ms delay. -/

/-- Start instant of cycle `k`: cycle 0 starts immediately on activation
(`pollBlock()` is invoked directly, line 216); cycle `k+1` starts when the
timer installed at cycle `k`'s settlement fires, 10 000 ms later. -/
def startTime (dur : Nat → Nat) : Nat → Nat
  | 0 => 0
  | k + 1 => startTime dur k + dur k + 10000

/-- Settlement instant of cycle `k`: both its awaited steps have settled. -/
def settleTime (dur : Nat → Nat) (k : Nat) : Nat :=
  startTime dur k + dur k

/-- The timer installed at cycle `k`'s settlement is pending from then
until it fires at `settleTime + 10000` (which is `startTime (k+1)`). -/
def timerPendingAt (dur : Nat → Nat) (k t : Nat) : Prop :=
  settleTime dur k ≤ t ∧ t < settleTime dur k + 10000

/-! ## Start handler and loop activation (source lines 58-66, 204-205) -/

/-- Source `start` (lines 58-66): the `invoke('start', …)` result, with
`.catch(e => { return e as string })` turning a rejection into the returned
value, is assigned to `startMessage`. -/
def startHandler (invokeStart : Except String String) : String :=
  match invokeStart with
  | Except.ok s => s
  | Except.error e => e

/-- The polling effect's activation guard (source line 205):
`if (!startMessage) return` — `undefined` and the empty string are falsy. -/
def pollLoopActivated (startMessage : Option String) : Bool :=
  match startMessage with
  | none => false
  | some s => s != ""

/-! ## Credential persistence (source lines 40, 43-47, 229-231) -/

/-- Embedding of `localStorage.setItem`. -/
def setItem (store : String → Option String) (k v : String) :
    String → Option String :=
  fun q => if q = k then some v else store q

/-- The guarded persistence effect (source lines 43-47):
`$effect(() => { if (openAiKey) { localStorage.setItem('openai-key',
openAiKey); } })` — writes only when the in-memory value is truthy
(non-empty). -/
def openAiKeyPersistEffect (openAiKey : String)
    (store : String → Option String) : String → Option String :=
  if openAiKey ≠ "" then setItem store "openai-key" openAiKey else store

/-- The second, unguarded effect (source lines 229-231):
`$effect(() => { localStorage.setItem('openAiKey', openAiKey); })` — note
it writes under the distinct key `'openAiKey'`. -/
def openAiKeyMirrorEffect (openAiKey : String)
    (store : String → Option String) : String → Option String :=
  setItem store "openAiKey" openAiKey

/-- Both effects re-run on a change of `openAiKey`. -/
def openAiKeyEffects (openAiKey : String)
    (store : String → Option String) : String → Option String :=
  openAiKeyMirrorEffect openAiKey (openAiKeyPersistEffect openAiKey store)

end Mana

namespace Mana

/-! ## Theorems: transport bridge and fork manager -/

/-- C5: a transport-bridge call rejects with the native error payload
verbatim exactly when the bridged response carries an `error` field, and
otherwise resolves with the response's `result` field as-is; `Except` makes
the two outcomes mutually exclusive and exhaustive. -/
theorem send_error_verbatim_or_result
    (response : BridgedResponse) :
    (∀ e : RpcErrorPayload, response.error = some e →
       sendOutcome response = Except.error e)
    ∧ (response.error = none →
       sendOutcome response = Except.ok response.result) := by
  constructor
  · intro e he
    simp [sendOutcome, thenHandler, catchRethrow, he]
  · intro hn
    simp [sendOutcome, thenHandler, catchRethrow, hn]

/-- C5 witness: the spec scenario — a response carrying
`{error: {code: -32000, message: "reverted"}}` rejects with that payload
verbatim, and an errorless response resolves with its result. -/
theorem send_error_verbatim_or_result_witness :
    sendOutcome { error := some { code := -32000, message := "reverted", data := none },
                  result := none }
      = Except.error { code := -32000, message := "reverted", data := none }
    ∧ sendOutcome { error := none, result := some "0x1" }
      = Except.ok (some "0x1") :=
  ⟨(send_error_verbatim_or_result _).1 _ rfl,
   (send_error_verbatim_or_result _).2 rfl⟩

/-- C6: `fork(); fork()` leaves exactly one active forked session, and it is
the session created by the second call (the second `createMemoryClient`
result overwrites the first); `unfork()` with no fork session is a no-op
that leaves the state Live and raises nothing (it is a total function). -/
theorem fork_fork_one_session_unfork_noop (s : AppState) :
    activeSessionCount (fork (fork s)) = 1
    ∧ (fork (fork s)).tevmClient = some (s.nextClientId + 1)
    ∧ (fork (fork s)).tevmClient ≠ (fork s).tevmClient
    ∧ (s.tevmClient = none → unfork s = s)
    ∧ (unfork s).tevmClient = none := by
  refine ⟨rfl, rfl, by simp [fork], ?_, rfl⟩
  intro h
  simp [unfork]
  cases s
  simp_all

/-- C6 witness: from the initial Live state, `fork(); fork()` holds exactly
the one session created second, and `unfork()` on the initial state is a
no-op leaving Live. -/
theorem fork_fork_one_session_unfork_noop_witness :
    activeSessionCount (fork (fork initState)) = 1
    ∧ (fork (fork initState)).tevmClient = some 1
    ∧ unfork initState = initState :=
  ⟨(fork_fork_one_session_unfork_noop initState).1,
   (fork_fork_one_session_unfork_noop initState).2.1,
   (fork_fork_one_session_unfork_noop initState).2.2.2.1 rfl⟩

/-- C1 (code bug exhibit): after `fork()` a fork session is active, yet the
poll cycle's block fetch, the autoload provider, and the identity-probe read
are all served by the live transport-bridge `client`, not the forked
in-memory backend; with oracles answering `0` (live) and `1` (forked), the
fetch observably returns the live answer. -/
theorem forked_reads_still_hit_live_client :
    (fork initState).tevmClient = some 0
    ∧ getBlockBackend (fork initState) = Backend.liveClient
    ∧ autoloadProviderBackend (fork initState) = Backend.liveClient
    ∧ identityProbeBackend (fork initState) = Backend.liveClient
    ∧ getBlockBackend (fork initState) ≠ Backend.forkedClient 0
    ∧ getBlockVia (fork initState) (fun _ => 0) (fun _ => 1) = 0 := by
  refine ⟨rfl, rfl, rfl, rfl, by decide, rfl⟩

/-! ## Theorems: poll-cycle failure semantics -/

/-- C2 (counterexample): a cycle whose block fetch rejects — with the flag
still set and a healthy synthesis configuration — does not schedule the
next cycle: `getBlock` has no catch, so the rejection escapes `pollBlock`
and the loop stops. -/
theorem fetch_failure_stops_loop :
    runCycle true (Except.ok { abi := [], proxies := [] })
        (Except.error "unused") (Except.ok none) true true true
      = CycleEnd.rejectedUnhandled
    ∧ CycleEnd.rejectedUnhandled ≠ CycleEnd.scheduledNext := by
  exact ⟨rfl, by decide⟩

/-- C2 (amended): any synthesis-stage failure (autoload rejection, identity
probe rejection, generation-service rejection or missing content) is caught
inside `handleAbi` and the next cycle is still scheduled while the flag is
set; but a block-fetch rejection ends the cycle unhandled, and then no next
cycle is scheduled regardless of the flag. -/
theorem cycle_failure_semantics
    (autoload : Except String AutoloadResult)
    (nameProbe : Except String String)
    (genResponse : Except String (Option String))
    (iframePresent docPresent running : Bool) :
    runCycle false autoload nameProbe genResponse iframePresent docPresent true
      = CycleEnd.scheduledNext
    ∧ runCycle true autoload nameProbe genResponse iframePresent docPresent running
      = CycleEnd.rejectedUnhandled := by
  exact ⟨rfl, rfl⟩

/-! ## Theorems: cancellation -/

/-- C3 (counterexample): the flag is not checked immediately after the
block-fetch await (the very next event is the synthesis start, not a flag
check), and when teardown interleaves with an in-flight block fetch the
synthesis step still starts and settles after teardown — its side effects
run post-teardown. -/
theorem synthesis_side_effects_survive_teardown :
    nextAfterFetchSettle (cycleTrace CancelAt.never) = some Ev.synthStart
    ∧ nextAfterFetchSettle (cycleTrace CancelAt.duringFetch) = some Ev.synthStart
    ∧ Ev.synthStart ∈ afterTeardown (cycleTrace CancelAt.duringFetch)
    ∧ Ev.synthSettle ∈ afterTeardown (cycleTrace CancelAt.duringFetch) := by
  decide

/-- C3 (amended): the running flag is checked exactly once per cycle —
after the synthesis await, with value `true` exactly when no teardown
occurred — and once teardown has been invoked no timer is ever scheduled;
but a cycle already in flight at teardown still completes its fetch and
synthesis side effects. -/
theorem teardown_prevents_scheduling_only (c : CancelAt) :
    (c ≠ CancelAt.never → Ev.schedule ∉ cycleTrace c)
    ∧ (Ev.schedule ∈ cycleTrace c → c = CancelAt.never)
    ∧ (cycleTrace c).count (Ev.flagCheck true)
        + (cycleTrace c).count (Ev.flagCheck false) = 1
    ∧ Ev.flagCheck (c == CancelAt.never) ∈ cycleTrace c
    ∧ Ev.synthSettle ∈ cycleTrace c := by
  cases c <;> decide

/-- C3 amended, witness: teardown during the fetch await — no schedule
event, one flag check (reading `false`), synthesis still settles. -/
theorem teardown_prevents_scheduling_only_witness :
    Ev.schedule ∉ cycleTrace CancelAt.duringFetch
    ∧ (Ev.schedule ∈ cycleTrace CancelAt.duringFetch →
        CancelAt.duringFetch = CancelAt.never)
    ∧ Ev.synthSettle ∈ cycleTrace CancelAt.duringFetch :=
  ⟨(teardown_prevents_scheduling_only CancelAt.duringFetch).1 (by decide),
   (teardown_prevents_scheduling_only CancelAt.duringFetch).2.1,
   (teardown_prevents_scheduling_only CancelAt.duringFetch).2.2.2.2⟩

/-! ## Theorems: poll cadence (non-overlap, single pending timer) -/

/-- The settlement instants of consecutive cycles are at least the fixed
delay apart. -/
theorem settleTime_gap (dur : Nat → Nat) (k : Nat) :
    settleTime dur k + 10000 ≤ settleTime dur (k + 1) := by
  simp only [settleTime, startTime]
  omega

/-- Settlement instants grow by at least the fixed delay per cycle. -/
theorem settleTime_mono (dur : Nat → Nat) {j k : Nat} (h : j < k) :
    settleTime dur j + 10000 ≤ settleTime dur k := by
  induction k with
  | zero => omega
  | succ n ih =>
      rcases Nat.lt_succ_iff_lt_or_eq.mp h with h' | h'
      · have := settleTime_gap dur n
        have := ih h'
        omega
      · subst h'
        exact settleTime_gap dur j

/-- C4: the timer for cycle `k+1` is installed at cycle `k`'s settlement
(after both the block fetch and the synthesis have settled) and fires
exactly 10 000 ms later, so consecutive cycles never overlap; and two
pending timers never coexist — at any instant at most one timer of the
session is pending. -/
theorem poll_cycles_never_overlap (dur : Nat → Nat) (j k t : Nat) :
    startTime dur (k + 1) = settleTime dur k + 10000
    ∧ settleTime dur k < startTime dur (k + 1)
    ∧ (timerPendingAt dur j t → timerPendingAt dur k t → j = k) := by
  refine ⟨by simp [settleTime, startTime], by simp [settleTime, startTime], ?_⟩
  intro hj hk
  by_contra hne
  rcases Nat.lt_or_ge j k with h | h
  · have := settleTime_mono dur h
    rcases hj with ⟨_, hj2⟩
    rcases hk with ⟨hk1, _⟩
    omega
  · have hlt : k < j := by omega
    have := settleTime_mono dur hlt
    rcases hj with ⟨hj1, _⟩
    rcases hk with ⟨_, hk2⟩
    omega

/-- C4 witness: with every cycle taking 5 ms of async work, the instant
5 ms after activation lies in cycle 0's timer-pending window, and the
uniqueness conclusion applies there. -/
theorem poll_cycles_never_overlap_witness :
    startTime (fun _ => 5) 1 = settleTime (fun _ => 5) 0 + 10000
    ∧ (0 : Nat) = 0 :=
  ⟨(poll_cycles_never_overlap (fun _ => 5) 0 0 5).1,
   (poll_cycles_never_overlap (fun _ => 5) 0 0 5).2.2
     (by simp [timerPendingAt, settleTime, startTime])
     (by simp [timerPendingAt, settleTime, startTime])⟩

/-! ## Theorems: interface synthesis on empty bytecode, injection order -/

/-- With a successful autoload, the generation request is issued
unconditionally — there is no emptiness check between the autoload result
and the `fetch` call. -/
theorem handleAbi_ok_requests_generation (r : AutoloadResult)
    (np : Except String String) (gr : Except String (Option String))
    (ip dp : Bool) :
    (handleAbi (Except.ok r) np gr ip dp).generationRequested = true := by
  rcases gr with e | (_ | ui)
  · rfl
  · rfl
  · by_cases hui : ui = "" <;> cases ip <;> cases dp <;> simp [handleAbi, hui]

/-- With an empty recovered ABI the identity probe finds no candidate and
the label stays the literal fallback. -/
theorem handleAbi_empty_abi_unknown_name
    (np : Except String String) (gr : Except String (Option String))
    (ip dp : Bool) :
    (handleAbi (Except.ok { abi := [], proxies := [] }) np gr ip dp).contractName
      = some "Unknown Contract" := by
  rcases gr with e | (_ | ui)
  · rfl
  · rfl
  · by_cases hui : ui = "" <;> cases ip <;> cases dp <;>
      simp [handleAbi, findNameFunction, hui]

/-- C7 (counterexample): for an empty-bytecode autoload result (`abi = []`,
`proxies = []`) the pipeline still issues the generation request, and when
the service returns markup a surface is produced and injected — the empty
ABI is not treated as a terminal outcome. -/
theorem empty_abi_still_generates_and_injects :
    (handleAbi (Except.ok { abi := [], proxies := [] }) (Except.error "unused")
        (Except.ok (some "<div>ui</div>")) true true).generationRequested = true
    ∧ (handleAbi (Except.ok { abi := [], proxies := [] }) (Except.error "unused")
        (Except.ok (some "<div>ui</div>")) true true).injectionOps ≠ [] := by
  constructor
  · exact handleAbi_ok_requests_generation _ _ _ _ _
  · decide

/-- C7 (amended): an empty-bytecode address yields the empty interface with
the `"Unknown Contract"` label and the pipeline does not throw on the
resolution path (only a generation-service rejection reaches the outer
catch), but the generation request is still made; no surface is injected
only when the service returns no content. -/
theorem empty_interface_degrades_but_generation_proceeds
    (np : Except String String) (gr : Except String (Option String))
    (ip dp : Bool) :
    (handleAbi (Except.ok { abi := [], proxies := [] }) np gr ip dp).contractName
      = some "Unknown Contract"
    ∧ (handleAbi (Except.ok { abi := [], proxies := [] }) np gr ip dp).generationRequested
      = true
    ∧ (gr = Except.ok none →
        (handleAbi (Except.ok { abi := [], proxies := [] }) np gr ip dp).injectionOps = [])
    ∧ (gr = Except.ok none →
        (handleAbi (Except.ok { abi := [], proxies := [] }) np gr ip dp).caughtError = false) := by
  refine ⟨handleAbi_empty_abi_unknown_name np gr ip dp,
          handleAbi_ok_requests_generation _ np gr ip dp, ?_, ?_⟩
  · rintro rfl
    rfl
  · rintro rfl
    rfl

/-- C7 amended, witness: empty autoload result, probe rejected, service
returned no content — label falls back, generation was requested, nothing
injected, nothing thrown. -/
theorem empty_interface_degrades_witness :
    (handleAbi (Except.ok { abi := [], proxies := [] }) (Except.error "probe")
        (Except.ok none) true true).contractName = some "Unknown Contract"
    ∧ (handleAbi (Except.ok { abi := [], proxies := [] }) (Except.error "probe")
        (Except.ok none) true true).generationRequested = true
    ∧ (handleAbi (Except.ok { abi := [], proxies := [] }) (Except.error "probe")
        (Except.ok none) true true).injectionOps = [] :=
  ⟨(empty_interface_degrades_but_generation_proceeds (Except.error "probe")
      (Except.ok none) true true).1,
   (empty_interface_degrades_but_generation_proceeds (Except.error "probe")
      (Except.ok none) true true).2.1,
   (empty_interface_degrades_but_generation_proceeds (Except.error "probe")
      (Except.ok none) true true).2.2.1 rfl⟩

/-- C8: whenever `handleAbi` performs any sandbox injection at all, the DOM
operations are exactly, in order: clear prior content (`doc.open()`), write
the generated markup (`doc.write`), attach the provider onto the sandbox
global (`contentWindow.viemProvider = provider`), finalize the write
(`doc.close()`) — the provider is attached immediately after the content is
written and strictly before the write is closed. -/
theorem provider_attached_between_write_and_close
    (autoload : Except String AutoloadResult)
    (np : Except String String) (gr : Except String (Option String))
    (ip dp : Bool)
    (h : (handleAbi autoload np gr ip dp).injectionOps ≠ []) :
    ∃ ui, gr = Except.ok (some ui)
      ∧ (handleAbi autoload np gr ip dp).injectionOps
        = [InjectOp.openDoc, InjectOp.writeMarkup ui,
           InjectOp.attachProvider, InjectOp.closeDoc] := by
  rcases autoload with e | r
  · exact absurd rfl h
  · rcases gr with e | (_ | ui)
    · exact absurd rfl h
    · exact absurd rfl h
    · refine ⟨ui, rfl, ?_⟩
      by_cases hui : ui = "" <;> cases ip <;> cases dp <;>
        simp_all [handleAbi, hui]

/-- C8 witness: a concrete injection — autoload succeeded, the service
returned markup, iframe and document present — performs exactly the
open/write/attach/close sequence. -/
theorem provider_attached_between_write_and_close_witness :
    ∃ ui, (Except.ok (some "<p>x</p>") : Except String (Option String))
        = Except.ok (some ui)
      ∧ (handleAbi (Except.ok { abi := [], proxies := [] }) (Except.error "probe")
          (Except.ok (some "<p>x</p>")) true true).injectionOps
        = [InjectOp.openDoc, InjectOp.writeMarkup ui,
           InjectOp.attachProvider, InjectOp.closeDoc] :=
  provider_attached_between_write_and_close (Except.ok { abi := [], proxies := [] })
    (Except.error "probe") (Except.ok (some "<p>x</p>")) true true
    (by decide)

/-! ## Theorems: start failure and credential persistence -/

/-- C9: a rejected native `start` command has its rejection value caught
and assigned to `startMessage`; a non-empty message is truthy, so the
polling effect's guard passes after a failed start exactly as after a
successful one. -/
theorem failed_start_still_activates_polling (e okMsg : String)
    (he : e ≠ "") (hok : okMsg ≠ "") :
    startHandler (Except.error e) = e
    ∧ pollLoopActivated (some (startHandler (Except.error e))) = true
    ∧ pollLoopActivated (some (startHandler (Except.error e)))
      = pollLoopActivated (some (startHandler (Except.ok okMsg))) := by
  have h1 : (e != "") = true := bne_iff_ne.mpr he
  have h2 : (okMsg != "") = true := bne_iff_ne.mpr hok
  refine ⟨rfl, ?_, ?_⟩
  · simp [pollLoopActivated, startHandler, h1]
  · simp [pollLoopActivated, startHandler, h1, h2]

/-- C9 witness: the rejection string `"no network"` is displayed and
activates the loop, just as the success string `"started"` does. -/
theorem failed_start_still_activates_polling_witness :
    startHandler (Except.error "no network") = "no network"
    ∧ pollLoopActivated (some (startHandler (Except.error "no network"))) = true :=
  ⟨(failed_start_still_activates_polling "no network" "started"
      (by decide) (by decide)).1,
   (failed_start_still_activates_polling "no network" "started"
      (by decide) (by decide)).2.1⟩

/-- C10: the guarded persistence effect writes nothing when the in-memory
key is empty, and running both credential effects with the in-memory key
set to the empty string leaves any previously persisted value under
`'openai-key'` unchanged (the unguarded effect writes under the distinct
key `'openAiKey'`). -/
theorem empty_key_never_clears_stored_credential
    (store : String → Option String) (v : String)
    (hv : store "openai-key" = some v) :
    openAiKeyPersistEffect "" store = store
    ∧ openAiKeyEffects "" store "openai-key" = some v := by
  constructor
  · simp [openAiKeyPersistEffect]
  · simp [openAiKeyEffects, openAiKeyMirrorEffect, openAiKeyPersistEffect,
          setItem, hv]

/-- C10 witness: a store holding `"sk-test"` under `'openai-key'` still
holds it after the effects run with the in-memory key cleared. -/
theorem empty_key_never_clears_stored_credential_witness :
    openAiKeyEffects "" (setItem (fun _ => none) "openai-key" "sk-test") "openai-key"
      = some "sk-test" :=
  (empty_key_never_clears_stored_credential
    (setItem (fun _ => none) "openai-key" "sk-test") "sk-test"
    (by simp [setItem])).2

end Mana
